import Mathlib

/-!
Verification of the arista hardware bring-up core (`src/arista/core/utils.py`
and `src/arista/core/platform.py`) against its natural-language specification.

The Python code is shallowly embedded: module-level mutable state is passed
explicitly, exceptions become `Except` values, and wall-clock time is passed
as an explicit elapsed-seconds parameter (a rational number standing for the
float returned by `total_seconds()`).
-/

/-- The concrete Python exceptions the embedded code can raise.  The spec's
abstract error taxonomy maps onto these: `NotMapped` is the `TypeError` from
subscripting `None`, `OutOfBounds` is the `struct.error` (read) or
`IndexError` (write) of a short mmap slice, `AlreadyMapped` is the
`AssertionError` of `MmapResource.map`, and `HardwareNotFound` is the
`RuntimeError` raised by `readPrefdl`. -/
inductive PyErr where
  | AttributeError
  | AssertionError
  | StructError
  | IndexError
  | TypeError
  | KeyError
  | RuntimeError
  deriving Repr, DecidableEq

/-- The mapped region of an `MmapResource`: a byte buffer.  `none` models
`self.mmap_ = None` (not currently mapped). -/
abbrev MmapState := Option (List Nat)

namespace MmapResource

/-- Python slice `buf[start:stop]` on a byte buffer: out-of-range bounds are
clamped, never an error. -/
def pySlice (buf : List Nat) (start stop : Nat) : List Nat :=
  (buf.drop start).take (stop - start)

/-- Embedding of `struct.pack('<L', v)`: the 4 little-endian bytes of `v`; raises
`struct.error` when `v` does not fit an unsigned 32-bit integer. -/
def packLE4 (v : Nat) : Except PyErr (List Nat) :=
  if v < 2 ^ 32 then
    .ok [v % 2 ^ 8, v / 2 ^ 8 % 2 ^ 8, v / 2 ^ 16 % 2 ^ 8, v / 2 ^ 24 % 2 ^ 8]
  else
    .error .StructError

/-- Embedding of `struct.unpack('<L', bytes)[0]`: little-endian decode of exactly 4 bytes;
raises `struct.error` on any other length. -/
def unpackLE4 (bytes : List Nat) : Except PyErr Nat :=
  match bytes with
  | [b0, b1, b2, b3] => .ok (b0 + 2 ^ 8 * b1 + 2 ^ 16 * b2 + 2 ^ 24 * b3)
  | _ => .error .StructError

/-- Embedding of `MmapResource.map`: asserts the window is not already mapped
(`assert not self.mmap_`), then attempts the open/fstat/mmap sequence.  The
OS outcome is abstracted as `osResult`: `none` when any of open/fstat/mmap
fails (the method logs and returns `False`), `some buf` when the file maps
to buffer `buf` (the method returns `True`). -/
def map (st : MmapState) (osResult : Option (List Nat)) :
    Except PyErr (Bool × MmapState) :=
  match st with
  | some _ => .error .AssertionError
  | none =>
    match osResult with
    | none => .ok (false, none)
    | some buf => .ok (true, some buf)

/-- Embedding of `MmapResource.close`: `self.mmap_.close(); self.mmap_ = None`.  When
`self.mmap_` is `None`, calling `.close()` on it raises `AttributeError`. -/
def close (st : MmapState) : Except PyErr MmapState :=
  match st with
  | none => .error .AttributeError
  | some _ => .ok none

/-- Embedding of `MmapResource.read32`: `unpack('<L', self.mmap_[addr:addr+4])[0]`.
Subscripting an unmapped (`None`) resource raises `TypeError`. -/
def read32 (st : MmapState) (addr : Nat) : Except PyErr Nat :=
  match st with
  | none => .error .TypeError
  | some buf => unpackLE4 (pySlice buf addr (addr + 4))

/-- Embedding of `MmapResource.write32`: `self.mmap_[addr:addr+4] = pack('<L', value)`.
Subscript-assignment on `None` raises `TypeError`; mmap slice assignment
raises `IndexError` unless the slice extent matches the 4 packed bytes. -/
def write32 (st : MmapState) (addr value : Nat) : Except PyErr MmapState :=
  match st with
  | none => .error .TypeError
  | some buf =>
    match packLE4 value with
    | .error e => .error e
    | .ok bytes =>
      if (pySlice buf addr (addr + 4)).length = bytes.length then
        .ok (some (buf.take addr ++ bytes ++ buf.drop (addr + 4)))
      else
        .error .IndexError

end MmapResource

/-! ## platform.py: descriptor reading and the platform registry -/

/-- The decoded descriptor: a Python dict of string keys and values, embedded
as an association list in insertion order. -/
abbrev Eeprom := List (String × String)

/-- Python `k in d` on a dict. -/
def dictHasKey (d : Eeprom) (k : String) : Bool :=
  d.any (fun kv => kv.1 = k)

/-- Python `d[k]` on a dict: the value stored for `k`, raising `KeyError`
when absent.  For an association list with unique keys this is the first
binding. -/
def dictGet (d : Eeprom) (k : String) : Except PyErr String :=
  match d.find? (fun kv => kv.1 = k) with
  | none => .error .KeyError
  | some kv => .ok kv.2

/-- One candidate bus address of `readPrefdl`'s search: whether its sysfs
eeprom register file exists (`os.path.exists`), and what `prefdl.decode`
does on its contents (`.error` abstracts over any exception the decode
raises; the payload is the exception message). -/
structure EepromCandidate where
  pathExists : Bool
  decode : Except String Eeprom

/-- Embedding of `readPrefdl`: walks the candidate addresses in priority order; skips an
address whose register file does not exist; returns the first successful
decode; logs and continues past a decode exception; raises
`RuntimeError("Could not find valid system eeprom")` when the list is
exhausted. -/
def readPrefdl : List EepromCandidate → Except PyErr Eeprom
  | [] => .error .RuntimeError
  | c :: rest =>
    if c.pathExists then
      match c.decode with
      | .ok d => .ok d
      | .error _ => readPrefdl rest
    else
      readPrefdl rest

/-- Embedding of `getPrefdlData`: in simulation, returns the fixed synthetic mapping
without touching hardware; otherwise performs the real search, whose outcome
`hw` embeds `readPrefdl().data()`. -/
def getPrefdlData (simulation : Bool) (hw : Except PyErr Eeprom) :
    Except PyErr Eeprom :=
  if simulation then
    .ok [("SKU", "simulation")]
  else
    hw

/-- The cache-miss path of `getSysEeprom`: perform the read (`read` is the
outcome `getPrefdlData` would produce) and run `assert 'SKU' in syseeprom`,
then install the result as the new cache. -/
def getSysEepromFill (read : Except PyErr Eeprom) :
    Except PyErr (Eeprom × Option Eeprom) :=
  match read with
  | .error e => .error e
  | .ok d =>
    if dictHasKey d "SKU" then
      .ok (d, some d)
    else
      .error .AssertionError

/-- Embedding of `getSysEeprom`: the process-wide cache `syseeprom` is threaded
explicitly (`none` embeds Python `None`).  The Python guard
`if not syseeprom` means a falsy cache (`None` or an empty dict) takes the
fill path; a truthy cache is returned as-is.  Returns the mapping together
with the new cache state. -/
def getSysEeprom (st : Option Eeprom) (read : Except PyErr Eeprom) :
    Except PyErr (Eeprom × Option Eeprom) :=
  match st with
  | none => getSysEepromFill read
  | some d =>
    if d.isEmpty then
      getSysEepromFill read
    else
      .ok (d, some d)

/-- Embedding of `detectPlatform`: `getSysEeprom()['SKU']`. -/
def detectPlatform (st : Option Eeprom) (read : Except PyErr Eeprom) :
    Except PyErr (String × Option Eeprom) :=
  match getSysEeprom st read with
  | .error e => .error e
  | .ok (d, st') =>
    match dictGet d "SKU" with
    | .error e => .error e
    | .ok sku => .ok (sku, st')

/-- A platform object constructed by `platforms[name]()`.  Python object
identity is embedded by tagging each construction with a fresh allocation
id drawn from an explicit counter. -/
structure PlatformInstance where
  className : String
  instId : Nat
  deriving Repr, DecidableEq

/-- The module-level `platforms` registry: SKU string to platform class
(classes are embedded by name). -/
abbrev PlatformRegistry := List (String × String)

/-- Embedding of `platforms[name]()`: look the class up (raising `KeyError` when the SKU
has no registration) and construct a fresh instance of it. -/
def instantiatePlatform (platforms : PlatformRegistry) (name : String)
    (fresh : Nat) : Except PyErr (PlatformInstance × Nat) :=
  match dictGet platforms name with
  | .error e => .error e
  | .ok cls => .ok (⟨cls, fresh⟩, fresh + 1)

/-- Embedding of `getPlatform(name=None)`: resolves a missing name through
`detectPlatform()` (which reads the descriptor cache `st`), then constructs
a fresh instance of the registered class.  Returns the instance, the updated
descriptor cache and the advanced allocation counter. -/
def getPlatform (platforms : PlatformRegistry) (st : Option Eeprom)
    (read : Except PyErr Eeprom) (name : Option String) (fresh : Nat) :
    Except PyErr (PlatformInstance × Option Eeprom × Nat) :=
  match name with
  | some n =>
    match instantiatePlatform platforms n fresh with
    | .error e => .error e
    | .ok (inst, fresh') => .ok (inst, st, fresh')
  | none =>
    match detectPlatform st read with
    | .error e => .error e
    | .ok (n, st') =>
      match instantiatePlatform platforms n fresh with
      | .error e => .error e
      | .ok (inst, fresh') => .ok (inst, st', fresh')

/-- Embedding of `registerPlatform(sku)` applied to a class: `platforms[sku] = cls`.
Dict assignment overwrites an existing binding for the key. -/
def registerPlatform (platforms : PlatformRegistry) (sku cls : String) :
    PlatformRegistry :=
  if platforms.any (fun kv => kv.1 = sku) then
    platforms.map (fun kv => if kv.1 = sku then (sku, cls) else kv)
  else
    platforms ++ [(sku, cls)]

/-! ## utils.py: boot command line and execution mode -/

/-- One entry of `/proc/cmdline` as parsed by `getCmdlineDict`:
`idx = entry.find('=')`; the key is the whole entry when there is no `'='`,
else the part before the first `'='` (the value is the remainder). -/
def cmdlineKey (entry : String) : String :=
  match entry.splitOn "=" with
  | [] => entry
  | k :: _ => k

/-- Embedding of `getCmdlineDict` restricted to what `libraryInit` consults: the key set
of the parsed dict, as the list of keys of the whitespace-split tokens. -/
def cmdlineKeys (tokens : List String) : List String :=
  tokens.map cmdlineKey

/-- Embedding of `libraryInit`: starting from the module defaults `simulation = True`,
`debug = False`, clears `simulation` when the cmdline has an `"Aboot"` key
and sets `debug` when it has an `"arista-debug"` key.  Returns the final
`(simulation, debug)` pair that `inSimulation()` / `inDebug()` report. -/
def libraryInit (tokens : List String) : Bool × Bool :=
  let simulation := if "Aboot" ∈ cmdlineKeys tokens then false else true
  let debug := if "arista-debug" ∈ cmdlineKeys tokens then true else false
  (simulation, debug)

/-- Embedding of `inSimulation()`: reads the module-level `simulation` flag. -/
def inSimulation (st : Bool × Bool) : Bool := st.1

/-- Embedding of `inDebug()`: reads the module-level `debug` flag. -/
def inDebug (st : Bool × Bool) : Bool := st.2

/-! ## utils.py: the Retrying poll iterator -/

/-- The `Retrying` policy object: configuration only.  Times are rationals
standing for the Python floats. -/
structure Retrying where
  interval : ℚ
  delay : ℚ
  maxAttempts : Option Nat
  deriving DecidableEq

/-- The inner `Iterator` state built by `Retrying.__iter__`: the attempt
counter plus a copy of the configuration.  The construction timestamp
`startedAt_` is embedded by expressing every later clock reading as the
elapsed seconds since it. -/
structure RetryIterator where
  attempt : Nat
  interval : ℚ
  delay : ℚ
  maxAttempts : Option Nat
  deriving DecidableEq

/-- Embedding of `Retrying.__iter__`: builds a brand-new `Iterator` with `attempt = 0`
and a fresh `startedAt_` timestamp. -/
def Retrying.iter (r : Retrying) : RetryIterator :=
  ⟨0, r.interval, r.delay, r.maxAttempts⟩

/-- Python truthiness of `self.maxAttempts_` (`None` and `0` are falsy). -/
def optNatTruthy : Option Nat → Bool
  | none => false
  | some n => n != 0

/-- Embedding of `Iterator.isExpired`: `self.interval_ and elapsed > self.interval_`,
where `elapsed` is `(datetime.now() - self.startedAt_).total_seconds()`.
A falsy (zero) interval short-circuits to a falsy result. -/
def RetryIterator.isExpired (it : RetryIterator) (elapsed : ℚ) : Bool :=
  it.interval != 0 && elapsed > it.interval

/-- Embedding of `self.maxAttempts_ and self.attempt >= self.maxAttempts_`: falsy
`maxAttempts_` (`None` or `0`) short-circuits the conjunction. -/
def RetryIterator.attemptsDone (it : RetryIterator) : Bool :=
  match it.maxAttempts with
  | none => false
  | some n => n != 0 && it.attempt ≥ n

/-- Embedding of `Iterator.__next__` after its `time.sleep(self.delay_)`: raises
`StopIteration` (embedded as `none`) when expired or the attempt bound is
reached, else increments `attempt` and yields.  `elapsed` is the seconds
since `startedAt_` at the moment of the check. -/
def RetryIterator.next (it : RetryIterator) (elapsed : ℚ) :
    Option RetryIterator :=
  if it.isExpired elapsed || it.attemptsDone then
    none
  else
    some { it with attempt := it.attempt + 1 }

/-! ## Helper lemmas -/

theorem pySlice_length (buf : List Nat) (addr : Nat) :
    (MmapResource.pySlice buf addr (addr + 4)).length = min 4 (buf.length - addr) := by
  simp [MmapResource.pySlice]

theorem pySlice_length_eq_four_iff (buf : List Nat) (addr : Nat) :
    (MmapResource.pySlice buf addr (addr + 4)).length = 4 ↔ addr + 4 ≤ buf.length := by
  rw [pySlice_length]
  omega

theorem unpackLE4_short (bytes : List Nat) (h : bytes.length ≠ 4) :
    MmapResource.unpackLE4 bytes = .error .StructError := by
  rcases bytes with _ | ⟨b0, _ | ⟨b1, _ | ⟨b2, _ | ⟨b3, _ | rest⟩⟩⟩⟩ <;>
    simp_all [MmapResource.unpackLE4]

theorem unpackLE4_exact (bytes : List Nat) (h : bytes.length = 4) :
    ∃ x, MmapResource.unpackLE4 bytes = .ok x := by
  rcases bytes with _ | ⟨b0, _ | ⟨b1, _ | ⟨b2, _ | ⟨b3, _ | rest⟩⟩⟩⟩ <;>
    simp_all [MmapResource.unpackLE4]

theorem packLE4_ok (v : Nat) (hv : v < 2 ^ 32) :
    MmapResource.packLE4 v =
      .ok [v % 2 ^ 8, v / 2 ^ 8 % 2 ^ 8, v / 2 ^ 16 % 2 ^ 8, v / 2 ^ 24 % 2 ^ 8] := by
  simp only [MmapResource.packLE4]
  rw [if_pos hv]

/-! ## Claim theorems -/

/-- Claim C1, counterexample.  The claim says release/close is idempotent and
that releasing a window that is not currently mapped is a no-op.  In the
code, `close` on an unmapped window calls `None.close()`, which raises
`AttributeError`; in particular closing a freshly mapped window twice raises
on the second call. -/
theorem mmap_close_unmapped_raises :
    MmapResource.close none = .error .AttributeError ∧
    MmapResource.close (some [0, 0, 0, 0]) = .ok none ∧
    (MmapResource.close (some [0, 0, 0, 0])).bind MmapResource.close =
      .error .AttributeError :=
  ⟨rfl, rfl, rfl⟩

/-- Claim C1, amended.  `close` on a mapped window unmaps it (mmap state
becomes `None`), but `close` is not idempotent: calling it on a window that
is not currently mapped — never acquired, or already released — raises
`AttributeError` rather than being a no-op. -/
theorem mmap_close_behavior (buf : List Nat) :
    MmapResource.close (some buf) = .ok none ∧
    MmapResource.close none = .error .AttributeError :=
  ⟨rfl, rfl⟩

/-- Claim C1, amended, witness. -/
theorem mmap_close_behavior_witness :
    MmapResource.close (some [7]) = .ok none ∧
    MmapResource.close none = .error .AttributeError :=
  mmap_close_behavior [7]

/-- Claim C2.  On a mapped window over a buffer of size `N`, `read32` and
`write32` fail exactly when `offset + 4 > N` — `read32` with the short-slice
`struct.error` and `write32` with the mmap slice-assignment `IndexError`
(the code's two concrete forms of the spec's `OutOfBounds`) — and both
raise the `TypeError` of subscripting `None` (the spec's `NotMapped`) when
no acquisition is active; within bounds both succeed. -/
theorem mmap_access_bounds (buf : List Nat) (addr v : Nat) (hv : v < 2 ^ 32) :
    MmapResource.read32 none addr = .error .TypeError ∧
    MmapResource.write32 none addr v = .error .TypeError ∧
    (addr + 4 > buf.length →
      MmapResource.read32 (some buf) addr = .error .StructError ∧
      MmapResource.write32 (some buf) addr v = .error .IndexError) ∧
    (addr + 4 ≤ buf.length →
      (∃ x, MmapResource.read32 (some buf) addr = .ok x) ∧
      (∃ st, MmapResource.write32 (some buf) addr v = .ok st)) := by
  refine ⟨rfl, rfl, fun hgt => ⟨?_, ?_⟩, fun hle => ⟨?_, ?_⟩⟩
  · have hlen : (MmapResource.pySlice buf addr (addr + 4)).length ≠ 4 := by
      rw [pySlice_length]; omega
    simpa [MmapResource.read32] using unpackLE4_short _ hlen
  · have hlen : (MmapResource.pySlice buf addr (addr + 4)).length ≠ 4 := by
      rw [pySlice_length]; omega
    simp [MmapResource.write32, packLE4_ok v hv, hlen]
  · have hlen : (MmapResource.pySlice buf addr (addr + 4)).length = 4 := by
      rw [pySlice_length]; omega
    simpa [MmapResource.read32] using unpackLE4_exact _ hlen
  · have hlen : (MmapResource.pySlice buf addr (addr + 4)).length = 4 := by
      rw [pySlice_length]; omega
    refine ⟨some (buf.take addr ++
      [v % 2 ^ 8, v / 2 ^ 8 % 2 ^ 8, v / 2 ^ 16 % 2 ^ 8, v / 2 ^ 24 % 2 ^ 8] ++
      buf.drop (addr + 4)), ?_⟩
    simp [MmapResource.write32, packLE4_ok v hv, hlen]

/-- Claim C2, witness. -/
theorem mmap_access_bounds_witness :
    MmapResource.read32 none 2 = .error .TypeError ∧
    MmapResource.write32 none 2 5 = .error .TypeError ∧
    (2 + 4 > [0, 0, 0, 0].length →
      MmapResource.read32 (some [0, 0, 0, 0]) 2 = .error .StructError ∧
      MmapResource.write32 (some [0, 0, 0, 0]) 2 5 = .error .IndexError) ∧
    (2 + 4 ≤ [0, 0, 0, 0].length →
      (∃ x, MmapResource.read32 (some [0, 0, 0, 0]) 2 = .ok x) ∧
      (∃ st, MmapResource.write32 (some [0, 0, 0, 0]) 2 5 = .ok st)) :=
  mmap_access_bounds [0, 0, 0, 0] 2 5 (by decide)

/-- Claim C3.  On a mapped window, for every 4-byte-aligned in-bounds offset
and every 32-bit value `v`, `write32 offset v` succeeds and a `read32
offset` on the resulting state returns `v`: the little-endian bytes stored
by `pack('<L', v)` decode back through `unpack('<L', ...)`. -/
theorem mmap_write_read_roundtrip (buf : List Nat) (addr v : Nat)
    (halign : addr % 4 = 0) (hbound : addr + 4 ≤ buf.length) (hv : v < 2 ^ 32) :
    ∃ st, MmapResource.write32 (some buf) addr v = .ok st ∧
      MmapResource.read32 st addr = .ok v := by
  have hlen : (MmapResource.pySlice buf addr (addr + 4)).length = 4 := by
    rw [pySlice_length]; omega
  have htake : (buf.take addr).length = addr := by
    simp
    omega
  refine ⟨some (buf.take addr ++
    [v % 2 ^ 8, v / 2 ^ 8 % 2 ^ 8, v / 2 ^ 16 % 2 ^ 8, v / 2 ^ 24 % 2 ^ 8] ++
    buf.drop (addr + 4)), ?_, ?_⟩
  · simp [MmapResource.write32, packLE4_ok v hv, hlen]
  · have h4 : addr + 4 - addr = 4 := by omega
    have hslice : MmapResource.pySlice (buf.take addr ++
        [v % 2 ^ 8, v / 2 ^ 8 % 2 ^ 8, v / 2 ^ 16 % 2 ^ 8, v / 2 ^ 24 % 2 ^ 8] ++
        buf.drop (addr + 4)) addr (addr + 4) =
        [v % 2 ^ 8, v / 2 ^ 8 % 2 ^ 8, v / 2 ^ 16 % 2 ^ 8, v / 2 ^ 24 % 2 ^ 8] := by
      unfold MmapResource.pySlice
      rw [List.append_assoc, List.drop_left' htake, h4]
      exact List.take_left' rfl
    simp only [MmapResource.read32, hslice, MmapResource.unpackLE4]
    congr 1
    omega

/-- Claim C3, witness. -/
theorem mmap_write_read_roundtrip_witness :
    ∃ st, MmapResource.write32 (some [9, 9, 9, 9, 9, 9, 9, 9]) 4 3735928559 = .ok st ∧
      MmapResource.read32 st 4 = .ok 3735928559 :=
  mmap_write_read_roundtrip [9, 9, 9, 9, 9, 9, 9, 9] 4 3735928559
    (by decide) (by decide) (by decide)

/-- Claim C4.  Starting from the initial empty cache (`syseeprom = None`),
once a call to `getSysEeprom` succeeds it has installed the returned mapping
as the cache, the mapping contains a `"SKU"` key, and every subsequent call
returns the cached mapping with the cache unchanged, independently of what
a descriptor read would produce (so no read is re-attempted).  Moreover a
first read whose result lacks a `"SKU"` key fails the assertion
(`AssertionError`), not a recoverable error. -/
theorem getSysEeprom_caches (read : Except PyErr Eeprom) (d : Eeprom)
    (st' : Option Eeprom) (h : getSysEeprom none read = .ok (d, st')) :
    (dictHasKey d "SKU" = true ∧ st' = some d ∧
      ∀ read', getSysEeprom st' read' = .ok (d, st')) ∧
    (∀ d₀ : Eeprom, dictHasKey d₀ "SKU" = false →
      getSysEeprom none (.ok d₀) = .error .AssertionError) := by
  constructor
  · cases read with
    | error e => simp [getSysEeprom, getSysEepromFill] at h
    | ok d₀ =>
      simp only [getSysEeprom, getSysEepromFill] at h
      by_cases hsku : dictHasKey d₀ "SKU" = true
      · rw [if_pos hsku] at h
        cases h
        have hne : d ≠ [] := by
          intro h0
          rw [h0] at hsku
          simp [dictHasKey] at hsku
        exact ⟨hsku, rfl, fun read' => by simp [getSysEeprom, hne]⟩
      · rw [if_neg hsku] at h
        exact absurd h (by simp)
  · intro d₀ hmiss
    simp [getSysEeprom, getSysEepromFill, hmiss]

/-- Claim C4, witness. -/
theorem getSysEeprom_caches_witness :
    (dictHasKey [("SKU", "DCS-001")] "SKU" = true ∧
      some [("SKU", "DCS-001")] = some [("SKU", "DCS-001")] ∧
      ∀ read', getSysEeprom (some [("SKU", "DCS-001")]) read' =
        .ok ([("SKU", "DCS-001")], some [("SKU", "DCS-001")])) ∧
    (∀ d₀ : Eeprom, dictHasKey d₀ "SKU" = false →
      getSysEeprom none (.ok d₀) = .error .AssertionError) :=
  getSysEeprom_caches (.ok [("SKU", "DCS-001")]) [("SKU", "DCS-001")]
    (some [("SKU", "DCS-001")]) rfl

/-- Claim C5.  In simulated mode `getPrefdlData` returns exactly
`{"SKU": "simulation"}` whatever the real hardware path would have
produced, so the hardware path is never consulted. -/
theorem getPrefdlData_simulated (hw : Except PyErr Eeprom) :
    getPrefdlData true hw = .ok [("SKU", "simulation")] :=
  rfl

/-- Claim C5, witness. -/
theorem getPrefdlData_simulated_witness :
    getPrefdlData true (.error .RuntimeError) = .ok [("SKU", "simulation")] :=
  getPrefdlData_simulated (.error .RuntimeError)

/-- Claim C6.  In the real-mode search `readPrefdl`: a candidate whose
register file does not exist is skipped, a candidate whose decode raises is
logged over and the search continues with the rest, and the search raises
`RuntimeError` (the spec's `HardwareNotFound`) exactly when no candidate
both exists and decodes successfully. -/
theorem readPrefdl_search (c : EepromCandidate) (rest cs : List EepromCandidate) :
    (c.pathExists = false → readPrefdl (c :: rest) = readPrefdl rest) ∧
    (∀ msg, c.decode = .error msg → readPrefdl (c :: rest) = readPrefdl rest) ∧
    (readPrefdl cs = .error .RuntimeError ↔
      ∀ x ∈ cs, ¬(x.pathExists = true ∧ ∃ d, x.decode = .ok d)) := by
  refine ⟨fun hne => by simp [readPrefdl, hne], fun msg hdec => ?_, ?_⟩
  · cases hp : c.pathExists <;> simp [readPrefdl, hp, hdec]
  · induction cs with
    | nil => simp [readPrefdl]
    | cons x rest ih =>
      by_cases hp : x.pathExists = true
      · cases hdec : x.decode with
        | ok d =>
          have hstep : readPrefdl (x :: rest) = .ok d := by
            simp [readPrefdl, hp, hdec]
          rw [hstep]
          constructor
          · intro h; exact absurd h (by simp)
          · intro hall
            exact absurd ⟨hp, d, hdec⟩ (hall x (List.mem_cons_self x rest))
        | error msg =>
          have hstep : readPrefdl (x :: rest) = readPrefdl rest := by
            simp [readPrefdl, hp, hdec]
          rw [hstep, ih]
          constructor
          · intro hall y hy
            rcases List.mem_cons.mp hy with rfl | hy'
            · rintro ⟨-, d, hd⟩
              rw [hdec] at hd
              cases hd
            · exact hall y hy'
          · intro hall y hy
            exact hall y (List.mem_cons_of_mem _ hy)
      · have hp' : x.pathExists = false := by simpa using hp
        have hstep : readPrefdl (x :: rest) = readPrefdl rest := by
          simp [readPrefdl, hp']
        rw [hstep, ih]
        constructor
        · intro hall y hy
          rcases List.mem_cons.mp hy with rfl | hy'
          · rintro ⟨hpe, -⟩
            rw [hp'] at hpe
            cases hpe
          · exact hall y hy'
        · intro hall y hy
          exact hall y (List.mem_cons_of_mem _ hy)

/-- Claim C6, witness. -/
theorem readPrefdl_search_witness :
    readPrefdl [⟨false, .error "missing"⟩] = readPrefdl [] :=
  (readPrefdl_search ⟨false, .error "missing"⟩ [] []).1 rfl

/-- Claim C7.  After `libraryInit` runs on the boot-parameter tokens (from the
module defaults `simulation = True`, `debug = False`), `inSimulation()` is
false exactly when a token with key `"Aboot"` is present (a bare `"Aboot"`
token or an `"Aboot=..."` pair), and `inDebug()` is true exactly when a
token with key `"arista-debug"` is present. -/
theorem libraryInit_modes (tokens : List String) :
    (inSimulation (libraryInit tokens) = false ↔ "Aboot" ∈ cmdlineKeys tokens) ∧
    (inDebug (libraryInit tokens) = true ↔ "arista-debug" ∈ cmdlineKeys tokens) := by
  constructor
  · by_cases h : "Aboot" ∈ cmdlineKeys tokens <;>
      simp [libraryInit, inSimulation, h]
  · by_cases h : "arista-debug" ∈ cmdlineKeys tokens <;>
      simp [libraryInit, inDebug, h]

/-- Claim C7, witness. -/
theorem libraryInit_modes_witness :
    (inSimulation (libraryInit ["Aboot", "console=ttyS0", "arista-debug"]) = false ↔
      "Aboot" ∈ cmdlineKeys ["Aboot", "console=ttyS0", "arista-debug"]) ∧
    (inDebug (libraryInit ["Aboot", "console=ttyS0", "arista-debug"]) = true ↔
      "arista-debug" ∈ cmdlineKeys ["Aboot", "console=ttyS0", "arista-debug"]) :=
  libraryInit_modes ["Aboot", "console=ttyS0", "arista-debug"]

/-- Claim C8.  When `getPlatform` is called with the sku argument omitted
(`name = None`), the sku is resolved through `detectPlatform` (hence from
the descriptor mapping) and the registered class is instantiated; two
successive successful calls construct two distinct instances (fresh
allocation on every call, no instance caching). -/
theorem getPlatform_detect_and_fresh (platforms : PlatformRegistry)
    (st st1 st2 : Option Eeprom) (read read' : Except PyErr Eeprom)
    (i1 i2 : PlatformInstance) (f f1 f2 : Nat)
    (h1 : getPlatform platforms st read none f = .ok (i1, st1, f1))
    (h2 : getPlatform platforms st1 read' none f1 = .ok (i2, st2, f2)) :
    (∃ sku st0, detectPlatform st read = .ok (sku, st0) ∧
      instantiatePlatform platforms sku f = .ok (i1, f1)) ∧
    i1.instId = f ∧ f1 = f + 1 ∧ i1 ≠ i2 := by
  have key : ∀ (st' st'' : Option Eeprom) (rd : Except PyErr Eeprom)
      (i : PlatformInstance) (g g' : Nat),
      getPlatform platforms st' rd none g = .ok (i, st'', g') →
      (∃ sku st0, detectPlatform st' rd = .ok (sku, st0) ∧
        instantiatePlatform platforms sku g = .ok (i, g')) ∧
      i.instId = g ∧ g' = g + 1 := by
    intro st' st'' rd i g g' h
    simp only [getPlatform] at h
    cases hdet : detectPlatform st' rd with
    | error e => rw [hdet] at h; exact absurd h (by simp)
    | ok p =>
      obtain ⟨sku, st0⟩ := p
      rw [hdet] at h
      simp only [instantiatePlatform] at h ⊢
      cases hget : dictGet platforms sku with
      | error e => rw [hget] at h; exact absurd h (by simp)
      | ok cls =>
        rw [hget] at h
        simp only [Except.ok.injEq, Prod.mk.injEq] at h
        obtain ⟨hi, -, hg⟩ := h
        subst hi
        subst hg
        refine ⟨⟨sku, st0, rfl, ?_⟩, rfl, rfl⟩
        rw [hget]
  obtain ⟨hfact, hid1, hf1⟩ := key st st1 read i1 f f1 h1
  obtain ⟨-, hid2, -⟩ := key st1 st2 read' i2 f1 f2 h2
  refine ⟨hfact, hid1, hf1, fun heq => ?_⟩
  rw [heq] at hid1
  omega

/-- Claim C8, witness.  The spec's end-to-end example: registry
`{"DCS-001": PlatformA, "DCS-002": PlatformB}`, descriptor
`{"SKU": "DCS-002"}`; `get()` twice yields two distinct `PlatformB`
instances. -/
theorem getPlatform_detect_and_fresh_witness :
    (∃ sku st0, detectPlatform none (.ok [("SKU", "DCS-002")]) = .ok (sku, st0) ∧
      instantiatePlatform [("DCS-001", "PlatformA"), ("DCS-002", "PlatformB")] sku 0 =
        .ok (⟨"PlatformB", 0⟩, 1)) ∧
    (⟨"PlatformB", 0⟩ : PlatformInstance).instId = 0 ∧ 1 = 0 + 1 ∧
    (⟨"PlatformB", 0⟩ : PlatformInstance) ≠ ⟨"PlatformB", 1⟩ :=
  getPlatform_detect_and_fresh [("DCS-001", "PlatformA"), ("DCS-002", "PlatformB")]
    none (some [("SKU", "DCS-002")]) (some [("SKU", "DCS-002")])
    (.ok [("SKU", "DCS-002")]) (.error .RuntimeError)
    ⟨"PlatformB", 0⟩ ⟨"PlatformB", 1⟩ 0 1 2 rfl rfl

/-- Claim C9, counterexample.  The claim says an exhausted `Retrying` policy
yields no further attempts when iterated again.  In the code `__iter__`
builds a brand-new `Iterator` on every call, so after a policy with
`maxAttempts = 1` is iterated to exhaustion (one attempt, then
`StopIteration`), iterating the same policy object again immediately yields
another attempt. -/
theorem retrying_reuse_counterexample :
    ((Retrying.mk 1 0 (some 1)).iter.next 0).bind (fun it => it.next 0) = none ∧
    (Retrying.mk 1 0 (some 1)).iter.next 0 ≠ none := by
  constructor
  · rfl
  · intro h
    cases h

/-- Claim C9, amended.  An individual `Iterator` obtained from a `Retrying`
policy, once exhausted, stays exhausted: if `__next__` raises
`StopIteration` at elapsed time `e`, it raises again at every later elapsed
time.  The policy object itself, however, is reusable: every `__iter__`
call returns a fresh iterator with attempt count `0` and the configured
bounds, so iterating an exhausted policy again starts a new full attempt
sequence — constructing a new policy is not required. -/
theorem retrying_iterator_exhaustion (r : Retrying) (it : RetryIterator)
    (e e' : ℚ) (hexh : it.next e = none) (hle : e ≤ e') :
    it.next e' = none ∧
    r.iter = ⟨0, r.interval, r.delay, r.maxAttempts⟩ := by
  refine ⟨?_, rfl⟩
  simp only [RetryIterator.next] at hexh ⊢
  by_cases hdone : it.attemptsDone = true
  · simp [hdone]
  · simp only [hdone, Bool.or_false] at hexh ⊢
    by_cases hexp : it.isExpired e = true
    · simp only [RetryIterator.isExpired, Bool.and_eq_true, bne_iff_ne,
        decide_eq_true_eq] at hexp
      have : it.isExpired e' = true := by
        simp only [RetryIterator.isExpired, Bool.and_eq_true, bne_iff_ne,
          decide_eq_true_eq]
        exact ⟨hexp.1, lt_of_lt_of_le hexp.2 hle⟩
      simp [this]
    · simp [hexp] at hexh

/-- Claim C9, amended, witness. -/
theorem retrying_iterator_exhaustion_witness :
    (RetryIterator.mk 5 1 0 (some 1)).next 2 = none ∧
    (Retrying.mk 1 0 (some 1)).iter = ⟨0, 1, 0, some 1⟩ :=
  retrying_iterator_exhaustion (Retrying.mk 1 0 (some 1))
    (RetryIterator.mk 5 1 0 (some 1)) 0 2 (by decide) (by norm_num)

/-- Claim C10.  A zero bound behaves as an absent bound, not as an
immediately-exhausted one: with `maxAttempts = 0` the attempt-count check
never fires (Python `0` is falsy), so the iterator can only stop through
expiry; with `interval = 0` the iterator is never expired (falsy interval),
so it can only stop through the attempt bound; and with both zero,
`__next__` always yields. -/
theorem retrying_zero_bounds (it : RetryIterator) (e : ℚ) :
    (it.maxAttempts = some 0 → it.attemptsDone = false ∧
      (it.next e = none ↔ it.isExpired e = true)) ∧
    (it.interval = 0 → it.isExpired e = false ∧
      (it.next e = none ↔ it.attemptsDone = true)) ∧
    (it.maxAttempts = some 0 → it.interval = 0 → it.next e ≠ none) := by
  refine ⟨fun hmax => ?_, fun hint => ?_, fun hmax hint => ?_⟩
  · have hdone : it.attemptsDone = false := by
      simp [RetryIterator.attemptsDone, hmax]
    refine ⟨hdone, ?_⟩
    simp [RetryIterator.next, hdone]
  · have hexp : it.isExpired e = false := by
      simp [RetryIterator.isExpired, hint]
    refine ⟨hexp, ?_⟩
    simp [RetryIterator.next, hexp]
  · have hdone : it.attemptsDone = false := by
      simp [RetryIterator.attemptsDone, hmax]
    have hexp : it.isExpired e = false := by
      simp [RetryIterator.isExpired, hint]
    simp [RetryIterator.next, hdone, hexp]

/-- Claim C10, witness. -/
theorem retrying_zero_bounds_witness :
    ((RetryIterator.mk 100 0 0 (some 0)).maxAttempts = some 0 →
      (RetryIterator.mk 100 0 0 (some 0)).attemptsDone = false ∧
      ((RetryIterator.mk 100 0 0 (some 0)).next 5 = none ↔
        (RetryIterator.mk 100 0 0 (some 0)).isExpired 5 = true)) ∧
    ((RetryIterator.mk 100 0 0 (some 0)).interval = 0 →
      (RetryIterator.mk 100 0 0 (some 0)).isExpired 5 = false ∧
      ((RetryIterator.mk 100 0 0 (some 0)).next 5 = none ↔
        (RetryIterator.mk 100 0 0 (some 0)).attemptsDone = true)) ∧
    ((RetryIterator.mk 100 0 0 (some 0)).maxAttempts = some 0 →
      (RetryIterator.mk 100 0 0 (some 0)).interval = 0 →
      (RetryIterator.mk 100 0 0 (some 0)).next 5 ≠ none) :=
  retrying_zero_bounds (RetryIterator.mk 100 0 0 (some 0)) 5
